import Mathlib

/-!
Shallow embedding of the `consul_locker` subsystem (package `consul_locker`
in the source): configuration normalisation (`setDefaults`), the lock
registry (the two maps `acquiredlocks` and `attemtinglocks` guarded by one
mutex), and the operations `Lock`, `KeepLock`, `Unlock`, `Stop`.

Durations (`time.Duration` in Go) are modelled as `Int` nanoseconds.
Go maps keyed by strings are modelled as association lists with
update-replaces semantics. A `doneChan` (`chan struct\x7b\x7d`) is modelled
by a numeric channel identifier; closing a channel is recorded as an event
appended to a trace, so *close at most once* is the statement that no
identifier occurs twice in the trace. Backend calls (Consul KV and session
API) are modelled by their outcomes, passed in as parameters or as a
per-iteration event trace. Mutex-mediated blocking is modelled with
`Option`: `none` is the computation that never returns (deadlock).
-/

namespace ConsulLocker

/-- One second in nanoseconds, the unit of Go `time.Duration`. -/
def second : Int := 1000000000

/-- Source constant `defaultSessionTTL = 10 * time.Second`. -/
def defaultSessionTTL : Int := 10 * second

/-- Source constant `defaultRetryTimer = 2 * time.Second`. -/
def defaultRetryTimer : Int := 2 * second

/-- Source constant `defaultDelay = 15 * time.Second`. -/
def defaultDelay : Int := 15 * second

/-- The `config` struct of the source: address, session-ttl, delay,
retry-timer, renew-period, debug. Durations are `Int` nanoseconds. -/
structure config where
  address : String
  sessionTTL : Int
  delay : Int
  retryTimer : Int
  renewPeriod : Int
  debug : Bool
deriving DecidableEq, Repr

/-- The `locks` struct of the source: a recorded session ID and the
identifier of the entry's `doneChan`. -/
structure locks where
  sessionID : String
  doneChan : Nat
deriving DecidableEq, Repr

/-- A Go `map[string]*locks`, as an association list (first binding wins). -/
abbrev LockMap := List (String × locks)

/-- Lookup in a lock map: Go `l, ok := m[key]`. -/
def mapLookup (k : String) : LockMap → Option locks
  | [] => none
  | (k', v) :: rest => if k' = k then some v else mapLookup k rest

/-- Deletion from a lock map: Go `delete(m, key)`. -/
def mapErase (k : String) : LockMap → LockMap
  | [] => []
  | (k', v) :: rest => if k' = k then mapErase k rest else (k', v) :: mapErase k rest

/-- Insertion into a lock map: Go `m[key] = v` (replaces any old binding). -/
def mapInsert (k : String) (v : locks) (m : LockMap) : LockMap :=
  (k, v) :: mapErase k m

/-- The registry fields of `ConsulLocker`: the two maps guarded by the
single mutex `c.m`. -/
structure Registry where
  acquiredlocks : LockMap
  attemtinglocks : LockMap
deriving DecidableEq, Repr

/-- Registry plus the trace of channel-close events (`close(lock.doneChan)`
calls), in program order. A channel identifier occurring twice in `closes`
is a double close, which panics in Go. -/
structure World where
  reg : Registry
  closes : List Nat
deriving DecidableEq, Repr

/-- The `setDefaults` helper of the source, statement by statement:
`SessionTTL <= 0` defaults to 10 s; `RetryTimer <= 0` defaults to 2 s;
`RenewPeriod <= 0 || RenewPeriod >= SessionTTL` (the already-updated TTL)
resets to `SessionTTL / 2`; `Delay < 0` defaults to 15 s; then
`Delay > 60 s` clamps to 60 s. -/
def setDefaults (c : config) : config :=
  let ttl := if c.sessionTTL ≤ 0 then defaultSessionTTL else c.sessionTTL
  let retry := if c.retryTimer ≤ 0 then defaultRetryTimer else c.retryTimer
  let renew := if c.renewPeriod ≤ 0 ∨ c.renewPeriod ≥ ttl then ttl / 2 else c.renewPeriod
  let delay1 := if c.delay < 0 then defaultDelay else c.delay
  let delay2 := if delay1 > 60 * second then 60 * second else delay1
  { c with sessionTTL := ttl, retryTimer := retry, renewPeriod := renew, delay := delay2 }

/-- Result of `Unlock`: `nil`, a surfaced backend error (from `KV().Delete`
or `Session().Destroy`), or `errors.New("unknown key")`. -/
inductive UnlockResult where
  | ok : UnlockResult
  | backendErr : String → UnlockResult
  | unknownKey : UnlockResult
deriving DecidableEq, Repr

/-- The body of `ConsulLocker.Unlock` (source lines 200-226), run under the
registry mutex. `deleteOK` and `destroyOK` are the outcomes of the backend
calls `KV().Delete` and `Session().Destroy`. Faithful to the source,
including the `attemtinglocks` branch deleting from `acquiredlocks`. -/
def Unlock (deleteOK destroyOK : Bool) (key : String) (w : World) : UnlockResult × World :=
  match mapLookup key w.reg.acquiredlocks with
  | some lock =>
    let w1 : World := { w with closes := w.closes ++ [lock.doneChan] }
    if !deleteOK then (.backendErr "delete", w1)
    else if !destroyOK then (.backendErr "destroy", w1)
    else (.ok, { w1 with reg := { w1.reg with acquiredlocks := mapErase key w1.reg.acquiredlocks } })
  | none =>
    match mapLookup key w.reg.attemtinglocks with
    | some lock =>
      let w1 : World := { w with closes := w.closes ++ [lock.doneChan] }
      if !destroyOK then (.backendErr "destroy", w1)
      else (.ok, { w1 with reg := { w1.reg with acquiredlocks := mapErase key w1.reg.acquiredlocks } })
    | none => (.unknownKey, w)

/-- A call of `Unlock` whose first statement is `c.m.Lock()` on a
non-reentrant mutex: when the caller already holds the mutex the call
blocks forever (`none`); otherwise it runs the body under the mutex. -/
def UnlockM (mutexHeld : Bool) (deleteOK destroyOK : Bool) (key : String) (w : World) :
    Option (UnlockResult × World) :=
  if mutexHeld then none else some (Unlock deleteOK destroyOK key w)

/-- The loop of `ConsulLocker.Stop` over the snapshot of keys: each
iteration calls `c.Unlock(k)` while Stop still holds the registry mutex
(Stop's `defer c.m.Unlock()` runs only after the loop). -/
def stopLoop (deleteOK destroyOK : Bool) : List String → World → Option World
  | [], w => some w
  | k :: rest, w =>
    match UnlockM true deleteOK destroyOK k w with
    | none => none
    | some (_, w') => stopLoop deleteOK destroyOK rest w'

/-- `ConsulLocker.Stop` (source lines 228-235): takes the registry mutex,
iterates the keys of `acquiredlocks`, calling `c.Unlock(k)` on each while
the mutex is still held, then returns `nil`. -/
def Stop (deleteOK destroyOK : Bool) (w : World) : Option World :=
  stopLoop deleteOK destroyOK (w.reg.acquiredlocks.map Prod.fst) w

/-- Critical section of `Lock` at source lines 148-150: record the attempt
`c.attemtinglocks[key] = &locks\x7bsessionID, doneChan\x7d` under the mutex. -/
def lockRecordAttempt (key sid : String) (done : Nat) (r : Registry) : Registry :=
  { r with attemtinglocks := mapInsert key ⟨sid, done⟩ r.attemtinglocks }

/-- Critical section of `Lock` at source lines 159-161: on a successful
acquire, record `c.acquiredlocks[key] = &locks\x7bsessionID, doneChan\x7d`
under the mutex. -/
def lockRecordAcquired (key sid : String) (done : Nat) (r : Registry) : Registry :=
  { r with acquiredlocks := mapInsert key ⟨sid, done⟩ r.acquiredlocks }

/-- Deferred critical section of `Lock` at source lines 122-126: on any
return path, `delete(c.attemtinglocks, key)` under the mutex. -/
def lockDeferredCleanup (key : String) (r : Registry) : Registry :=
  { r with attemtinglocks := mapErase key r.attemtinglocks }

/-- The terminal error of `Lock`: `ctx.Err()` on context cancellation, or
`lockers.ErrCanceled` when the attempt's `doneChan` was closed. -/
inductive LockErr where
  | ctxErr : LockErr
  | canceled : LockErr
deriving DecidableEq, Repr

/-- What one iteration of `Lock`'s retry loop observes: whether `ctx.Done()`
is ready, whether this attempt's `doneChan` is closed, the outcome of
`Session().Create` (`none` is an error, `some sid` a fresh session), and
the outcome of `KV().Acquire` (`none` an error, `some b` the acquired
boolean). -/
structure LockIterEvent where
  ctxDone : Bool
  doneClosed : Bool
  sessionCreate : Option String
  acquireResp : Option Bool
deriving DecidableEq, Repr

/-- The retry loop of `ConsulLocker.Lock` (source lines 127-169), driven by
the per-iteration observations, threading the registry. Each `select`
checks `ctx.Done()` then `doneChan` then falls to the default branch;
session-create failure and acquire failure sleep and retry; a successful
acquire records the lock as acquired and returns `(true, nil)`. Every
return path runs the deferred cleanup. `none` means the event trace ended
with the loop still running. -/
def lockLoop (key : String) (done : Nat) :
    List LockIterEvent → Registry → Option ((Bool × Option LockErr) × Registry)
  | [], _ => none
  | e :: rest, r =>
    if e.ctxDone then some ((false, some .ctxErr), lockDeferredCleanup key r)
    else if e.doneClosed then some ((false, some .canceled), lockDeferredCleanup key r)
    else
      match e.sessionCreate with
      | none => lockLoop key done rest r
      | some sid =>
        let r1 := lockRecordAttempt key sid done r
        match e.acquireResp with
        | none => lockLoop key done rest r1
        | some true =>
          some ((true, none), lockDeferredCleanup key (lockRecordAcquired key sid done r1))
        | some false => lockLoop key done rest r1

/-- What a `KeepLock` call produces: whether the returned done channel is
the fresh one made by `KeepLock` (rather than the held entry's), whether
the spawned task closes that channel, and the values the task sends on the
returned error channel, in order. -/
structure KeepLockResult where
  doneChanFresh : Bool
  taskClosesDone : Bool
  errSends : List String
deriving DecidableEq, Repr

/-- `ConsulLocker.KeepLock` (source lines 172-198): under the mutex, read
`acquiredlocks[key]` into `sessionID` (else the empty string) and
`doneChan` (else a fresh channel); the spawned task sends
`"unknown key"` and closes the channel when `sessionID == ""`, otherwise
runs `RenewPeriodic` and sends its error if it fails (`renewErr`). -/
def KeepLock (reg : Registry) (key : String) (renewErr : Option String) : KeepLockResult :=
  let sessionID := match mapLookup key reg.acquiredlocks with
    | some l => l.sessionID
    | none => ""
  let fresh := (mapLookup key reg.acquiredlocks).isNone
  if sessionID = "" then
    { doneChanFresh := fresh, taskClosesDone := true, errSends := ["unknown key"] }
  else
    { doneChanFresh := fresh, taskClosesDone := false,
      errSends := match renewErr with | none => [] | some e => [e] }

/-! Helper lemmas about the registry maps. -/

theorem mapLookup_mapErase_self (k : String) (m : LockMap) :
    mapLookup k (mapErase k m) = none := by
  induction m with
  | nil => rfl
  | cons p rest ih =>
    obtain ⟨k', v⟩ := p
    simp only [mapErase]
    split <;> simp_all [mapLookup]

/-- On every path that returns, the retry loop of `Lock` has run the
deferred cleanup, so the key is absent from `attemtinglocks` in the final
registry. -/
theorem lockLoop_attempting_none (key : String) (done : Nat) :
    ∀ (events : List LockIterEvent) (r : Registry) (out : (Bool × Option LockErr) × Registry),
      lockLoop key done events r = some out →
      mapLookup key out.2.attemtinglocks = none := by
  intro events
  induction events with
  | nil => intro r out h; simp [lockLoop] at h
  | cons e rest ih =>
    intro r out h
    simp only [lockLoop] at h
    split at h
    · cases h
      simp [lockDeferredCleanup, mapLookup_mapErase_self]
    · split at h
      · cases h
        simp [lockDeferredCleanup, mapLookup_mapErase_self]
      · split at h
        · exact ih _ _ h
        · split at h
          · exact ih _ _ h
          · cases h
            simp [lockDeferredCleanup, mapLookup_mapErase_self]
          · exact ih _ _ h

/-- Claim C1 (code bug): the move from Attempting to Held is not atomic.
Starting from an empty registry, running the two critical sections of a
successful `Lock` in source order — record the attempt (lines 148-150),
then record the acquired lock (lines 159-161) — yields a registry state in
which the key is in BOTH maps; the mutex is free there, since the deferred
cleanup (lines 122-126) reacquires it later, so an observer holding the
registry mutex in that window sees the key in both maps, violating the
claimed Attempting XOR Held XOR absent invariant. Only after the deferred
cleanup is the key gone from Attempting. -/
theorem C1_disjointness_window :
    (mapLookup "k" (lockRecordAcquired "k" "s" 0 (lockRecordAttempt "k" "s" 0 ⟨[], []⟩)).acquiredlocks).isSome = true ∧
    (mapLookup "k" (lockRecordAcquired "k" "s" 0 (lockRecordAttempt "k" "s" 0 ⟨[], []⟩)).attemtinglocks).isSome = true ∧
    mapLookup "k" (lockDeferredCleanup "k" (lockRecordAcquired "k" "s" 0 (lockRecordAttempt "k" "s" 0 ⟨[], []⟩))).attemtinglocks = none := by
  decide

/-- Claim C2 (code bug): `Stop` self-deadlocks on any non-empty registry.
`Stop` takes the registry mutex and, still holding it, calls `Unlock`,
whose first statement takes the same non-reentrant mutex — so with one
held lock `Stop` never returns (`none`), releasing nothing; it returns
only when `acquiredlocks` is already empty. -/
theorem C2_stop_deadlock :
    Stop true true ⟨⟨[("a", ⟨"s1", 1⟩)], []⟩, []⟩ = none ∧
    Stop true true ⟨⟨[], []⟩, []⟩ = some ⟨⟨[], []⟩, []⟩ := by
  decide

/-- Claim C3 (code bug): `Unlock` on a key in Attempting closes its
doneChan and destroys the session, and returns `nil` when the backend call
succeeds, but it deletes the entry from `acquiredlocks` instead of
`attemtinglocks` (source line 222), so the key is still in the Attempting
map afterwards — not removed from the registry as the claim states. -/
theorem C3_unlock_attempting_leaves_entry :
    (Unlock true true "k" ⟨⟨[], [("k", ⟨"s", 3⟩)]⟩, []⟩).1 = .ok ∧
    (Unlock true true "k" ⟨⟨[], [("k", ⟨"s", 3⟩)]⟩, []⟩).2.closes = [3] ∧
    mapLookup "k" (Unlock true true "k" ⟨⟨[], [("k", ⟨"s", 3⟩)]⟩, []⟩).2.reg.attemtinglocks = some ⟨"s", 3⟩ := by
  decide

/-- Claim C4 counterexample: with key `"k"` held and the backend
`KV().Delete` failing, `Unlock` surfaces the error but returns early
(source lines 205-208) WITHOUT removing the entry from `acquiredlocks` —
the claim's "the entry is removed from the registry regardless of that
failure" is false. -/
theorem C4_counterexample :
    (Unlock false true "k" ⟨⟨[("k", ⟨"s", 5⟩)], []⟩, []⟩).1 = .backendErr "delete" ∧
    mapLookup "k" (Unlock false true "k" ⟨⟨[("k", ⟨"s", 5⟩)], []⟩, []⟩).2.reg.acquiredlocks = some ⟨"s", 5⟩ := by
  decide

/-- Claim C6 (code bug): a doneChan can be closed twice. With key `"k"`
held and channel 7 recorded, an `Unlock` whose backend `KV().Delete` fails
closes channel 7 and leaves the entry in `acquiredlocks`; a second
`Unlock` of the same key finds the entry again and closes channel 7 a
second time — two closes of the same channel, which panics in Go. -/
theorem C6_double_close :
    ((Unlock true true "k" (Unlock false true "k" ⟨⟨[("k", ⟨"s", 7⟩)], []⟩, []⟩).2).2.closes.count 7 = 2) ∧
    (Unlock false true "k" ⟨⟨[("k", ⟨"s", 7⟩)], []⟩, []⟩).1 = .backendErr "delete" ∧
    (Unlock true true "k" (Unlock false true "k" ⟨⟨[("k", ⟨"s", 7⟩)], []⟩, []⟩).2).1 = .ok := by
  decide

/-- Claim C7 counterexample: a config accepted by `Init` with
`sessionTTL = 1` nanosecond (positive, so kept) and `renewPeriod` unset
gets `renewPeriod = sessionTTL / 2 = 0` by integer division, so the
claimed `0 < renewPeriod` fails after normalisation. -/
theorem C7_counterexample :
    (setDefaults ⟨"", 1, 0, 0, 0, false⟩).renewPeriod = 0 ∧
    ¬ (0 < (setDefaults ⟨"", 1, 0, 0, 0, false⟩).renewPeriod) := by
  decide

/-- Claim C8 counterexample: an unset `lockDelay` decodes to 0, and
`setDefaults` applies the 15 s default only when `Delay < 0` (source line
256), so after Init the delay is 0, not the claimed default of 15 s. -/
theorem C8_counterexample :
    (setDefaults ⟨"", 0, 0, 0, 0, false⟩).delay = 0 ∧
    (setDefaults ⟨"", 0, 0, 0, 0, false⟩).delay ≠ defaultDelay := by
  decide

/-- Claim C4, amended: for every key held in `acquiredlocks`, `Unlock`
closes the entry's doneChan and then: if both backend calls succeed it
returns `nil` and removes the entry; if `KV().Delete` fails it surfaces
that error and leaves the entry in place; if `Session().Destroy` fails it
surfaces that error and leaves the entry in place. The entry is removed
only on full success, not regardless of failure. -/
theorem C4_amended_unlock_held (deleteOK destroyOK : Bool) (key : String)
    (w : World) (l : locks) (h : mapLookup key w.reg.acquiredlocks = some l) :
    (Unlock deleteOK destroyOK key w).2.closes = w.closes ++ [l.doneChan] ∧
    (deleteOK = true → destroyOK = true →
      (Unlock deleteOK destroyOK key w).1 = .ok ∧
      mapLookup key (Unlock deleteOK destroyOK key w).2.reg.acquiredlocks = none) ∧
    (deleteOK = false →
      (Unlock deleteOK destroyOK key w).1 = .backendErr "delete" ∧
      (Unlock deleteOK destroyOK key w).2.reg = w.reg) ∧
    (deleteOK = true → destroyOK = false →
      (Unlock deleteOK destroyOK key w).1 = .backendErr "destroy" ∧
      (Unlock deleteOK destroyOK key w).2.reg = w.reg) := by
  cases deleteOK <;> cases destroyOK <;>
    simp [Unlock, h, mapLookup_mapErase_self]

/-- Witness for C4: a concrete held entry, fully successful backend calls:
the channel-close is recorded, the result is `nil` and the entry is gone. -/
theorem C4_amended_unlock_held_witness :
    (Unlock true true "k" ⟨⟨[("k", ⟨"s", 5⟩)], []⟩, [9]⟩).2.closes = [9] ++ [5] ∧
    ((Unlock true true "k" ⟨⟨[("k", ⟨"s", 5⟩)], []⟩, [9]⟩).1 = .ok ∧
      mapLookup "k" (Unlock true true "k" ⟨⟨[("k", ⟨"s", 5⟩)], []⟩, [9]⟩).2.reg.acquiredlocks = none) :=
  ⟨(C4_amended_unlock_held true true "k" ⟨⟨[("k", ⟨"s", 5⟩)], []⟩, [9]⟩ ⟨"s", 5⟩ rfl).1,
   (C4_amended_unlock_held true true "k" ⟨⟨[("k", ⟨"s", 5⟩)], []⟩, [9]⟩ ⟨"s", 5⟩ rfl).2.1 rfl rfl⟩

/-- Claim C5 (confirmed): in `Lock`'s retry loop, an iteration that
observes the context cancelled returns `(false, ctx.Err())` after the
deferred removal from Attempting; an iteration that observes the attempt's
doneChan closed returns `(false, lockers.ErrCanceled)` likewise; and on
EVERY path on which the loop returns, the key is absent from
`attemtinglocks` in the final registry. -/
theorem C5_lock_cancellation (key : String) (done : Nat) :
    (∀ (e : LockIterEvent) (rest : List LockIterEvent) (r : Registry),
      e.ctxDone = true →
      lockLoop key done (e :: rest) r =
        some ((false, some .ctxErr), lockDeferredCleanup key r)) ∧
    (∀ (e : LockIterEvent) (rest : List LockIterEvent) (r : Registry),
      e.ctxDone = false → e.doneClosed = true →
      lockLoop key done (e :: rest) r =
        some ((false, some .canceled), lockDeferredCleanup key r)) ∧
    (∀ (events : List LockIterEvent) (r : Registry) (out : (Bool × Option LockErr) × Registry),
      lockLoop key done events r = some out →
      mapLookup key out.2.attemtinglocks = none) := by
  refine ⟨?_, ?_, lockLoop_attempting_none key done⟩
  · intro e rest r h
    simp [lockLoop, h]
  · intro e rest r h1 h2
    simp [lockLoop, h1, h2]

/-- Witness for C5: both cancellation exits at concrete inputs, and the
absence of the key from Attempting after a concrete run. -/
theorem C5_lock_cancellation_witness :
    (lockLoop "k" 0 [⟨true, false, none, none⟩] ⟨[], [("k", ⟨"s", 0⟩)]⟩ =
      some ((false, some .ctxErr), lockDeferredCleanup "k" ⟨[], [("k", ⟨"s", 0⟩)]⟩)) ∧
    (lockLoop "k" 0 [⟨false, true, none, none⟩] ⟨[], [("k", ⟨"s", 0⟩)]⟩ =
      some ((false, some .canceled), lockDeferredCleanup "k" ⟨[], [("k", ⟨"s", 0⟩)]⟩)) ∧
    mapLookup "k" ((((false, some LockErr.ctxErr), lockDeferredCleanup "k" ⟨[], [("k", ⟨"s", 0⟩)]⟩) :
      (Bool × Option LockErr) × Registry)).2.attemtinglocks = none :=
  ⟨(C5_lock_cancellation "k" 0).1 ⟨true, false, none, none⟩ [] ⟨[], [("k", ⟨"s", 0⟩)]⟩ rfl,
   (C5_lock_cancellation "k" 0).2.1 ⟨false, true, none, none⟩ [] ⟨[], [("k", ⟨"s", 0⟩)]⟩ rfl rfl,
   (C5_lock_cancellation "k" 0).2.2 [⟨true, false, none, none⟩] ⟨[], [("k", ⟨"s", 0⟩)]⟩
     ((false, some .ctxErr), lockDeferredCleanup "k" ⟨[], [("k", ⟨"s", 0⟩)]⟩) rfl⟩

/-- Claim C7, amended: after `setDefaults`, `0 ≤ renewPeriod < sessionTTL`
always holds, and `0 < renewPeriod` holds whenever the normalised
sessionTTL is at least 2 ns (the sole exception is a 1 ns TTL, where
integer division makes `sessionTTL / 2 = 0`); `0 ≤ lockDelay ≤ 60 s`
always holds; a configured (positive) sessionTTL with
`renewPeriod ≥ sessionTTL` resets renewPeriod to `sessionTTL / 2`; and a
configured lockDelay of 65 s is clamped to 60 s. -/
theorem C7_amended_normalisation (c : config) :
    (0 ≤ (setDefaults c).renewPeriod ∧ (setDefaults c).renewPeriod < (setDefaults c).sessionTTL) ∧
    (2 ≤ (setDefaults c).sessionTTL → 0 < (setDefaults c).renewPeriod) ∧
    (0 ≤ (setDefaults c).delay ∧ (setDefaults c).delay ≤ 60 * second) ∧
    (0 < c.sessionTTL → c.sessionTTL ≤ c.renewPeriod →
      (setDefaults c).renewPeriod = c.sessionTTL / 2) ∧
    (c.delay = 65 * second → (setDefaults c).delay = 60 * second) := by
  simp only [setDefaults, second, defaultSessionTTL, defaultRetryTimer, defaultDelay,
    ge_iff_le, gt_iff_lt]
  split_ifs <;> simp_all <;> omega

/-- Witness for C7: a config with a 20 ns TTL, renewPeriod 25 ≥ TTL and a
65 s delay: renewPeriod becomes `20 / 2 = 10` and delay is clamped to
60 s, with all the normalisation bounds holding. -/
theorem C7_amended_normalisation_witness :
    ((0 ≤ (setDefaults ⟨"x", 20, 65 * second, 3, 25, false⟩).renewPeriod ∧
      (setDefaults ⟨"x", 20, 65 * second, 3, 25, false⟩).renewPeriod <
        (setDefaults ⟨"x", 20, 65 * second, 3, 25, false⟩).sessionTTL)) ∧
    (0 < (setDefaults ⟨"x", 20, 65 * second, 3, 25, false⟩).renewPeriod) ∧
    ((setDefaults ⟨"x", 20, 65 * second, 3, 25, false⟩).renewPeriod = 20 / 2) ∧
    ((setDefaults ⟨"x", 20, 65 * second, 3, 25, false⟩).delay = 60 * second) :=
  ⟨(C7_amended_normalisation ⟨"x", 20, 65 * second, 3, 25, false⟩).1,
   (C7_amended_normalisation ⟨"x", 20, 65 * second, 3, 25, false⟩).2.1 (by decide),
   (C7_amended_normalisation ⟨"x", 20, 65 * second, 3, 25, false⟩).2.2.2.1 (by decide) (by decide),
   (C7_amended_normalisation ⟨"x", 20, 65 * second, 3, 25, false⟩).2.2.2.2 rfl⟩

/-- Claim C8, amended: the 15 s `defaultDelay` is applied only when the
configured lockDelay is negative; an unset lockDelay (which decodes to 0)
stays 0 after Init rather than taking the default. -/
theorem C8_amended_delay_default (c : config) :
    (c.delay < 0 → (setDefaults c).delay = defaultDelay) ∧
    (c.delay = 0 → (setDefaults c).delay = 0) := by
  simp only [setDefaults, second, defaultDelay]
  constructor <;> intro h <;> split_ifs <;> omega

/-- Witness for C8: a negative configured delay becomes 15 s; a zero
(unset) delay stays 0. -/
theorem C8_amended_delay_default_witness :
    ((setDefaults ⟨"", 0, -1, 0, 0, false⟩).delay = defaultDelay) ∧
    ((setDefaults ⟨"", 0, 0, 0, 0, true⟩).delay = 0) :=
  ⟨(C8_amended_delay_default ⟨"", 0, -1, 0, 0, false⟩).1 (by decide),
   (C8_amended_delay_default ⟨"", 0, 0, 0, 0, true⟩).2 rfl⟩

/-- Claim C9 (confirmed): when the key is not in `acquiredlocks`,
`KeepLock` hands back the fresh done channel it made, the spawned task
sends exactly one `"unknown key"` error and closes that channel; and on
every call — whatever the registry and the renewal outcome — the returned
error channel carries at most one value. -/
theorem C9_keeplock (reg : Registry) (key : String) (renewErr : Option String) :
    (mapLookup key reg.acquiredlocks = none →
      KeepLock reg key renewErr =
        ⟨true, true, ["unknown key"]⟩) ∧
    (KeepLock reg key renewErr).errSends.length ≤ 1 := by
  constructor
  · intro h
    simp [KeepLock, h]
  · unfold KeepLock
    cases mapLookup key reg.acquiredlocks <;> cases renewErr <;>
      simp <;> split <;> simp

/-- Witness for C9: on an empty registry the unknown-key behaviour occurs
concretely, and the error-channel bound holds there. -/
theorem C9_keeplock_witness :
    KeepLock ⟨[], []⟩ "k" none = ⟨true, true, ["unknown key"]⟩ ∧
    (KeepLock ⟨[], []⟩ "k" none).errSends.length ≤ 1 :=
  ⟨(C9_keeplock ⟨[], []⟩ "k" none).1 rfl, (C9_keeplock ⟨[], []⟩ "k" none).2⟩

set_option maxHeartbeats 1000000 in
/-- Claim C10 (confirmed): `setDefaults` never touches `address` or
`debug`; it keeps `sessionTTL` and `retryTimer` whenever they are
positive, `renewPeriod` whenever `0 < renewPeriod < sessionTTL`, and
`delay` whenever `0 ≤ delay ≤ 60 s`; and it is idempotent. -/
theorem C10_frame_idempotent (c : config) :
    (setDefaults c).address = c.address ∧
    (setDefaults c).debug = c.debug ∧
    (0 < c.sessionTTL → (setDefaults c).sessionTTL = c.sessionTTL) ∧
    (0 < c.retryTimer → (setDefaults c).retryTimer = c.retryTimer) ∧
    (0 < c.renewPeriod → c.renewPeriod < c.sessionTTL →
      (setDefaults c).renewPeriod = c.renewPeriod) ∧
    (0 ≤ c.delay → c.delay ≤ 60 * second → (setDefaults c).delay = c.delay) ∧
    setDefaults (setDefaults c) = setDefaults c := by
  obtain ⟨addr, ttl, delay, retry, renew, dbg⟩ := c
  simp only [setDefaults, second, defaultSessionTTL, defaultRetryTimer, defaultDelay,
    config.mk.injEq, ge_iff_le, gt_iff_lt]
  split_ifs <;> simp_all <;> omega

/-- Witness for C10: a fully in-range config is returned unchanged field
by field, and re-normalising a normalised config changes nothing. -/
theorem C10_frame_idempotent_witness :
    ((setDefaults ⟨"a", 10, 5, 2, 4, true⟩).address = "a") ∧
    ((setDefaults ⟨"a", 10, 5, 2, 4, true⟩).debug = true) ∧
    ((setDefaults ⟨"a", 10, 5, 2, 4, true⟩).sessionTTL = 10) ∧
    ((setDefaults ⟨"a", 10, 5, 2, 4, true⟩).retryTimer = 2) ∧
    ((setDefaults ⟨"a", 10, 5, 2, 4, true⟩).renewPeriod = 4) ∧
    ((setDefaults ⟨"a", 10, 5, 2, 4, true⟩).delay = 5) ∧
    setDefaults (setDefaults ⟨"a", 10, 5, 2, 4, true⟩) = setDefaults ⟨"a", 10, 5, 2, 4, true⟩ :=
  ⟨(C10_frame_idempotent ⟨"a", 10, 5, 2, 4, true⟩).1,
   (C10_frame_idempotent ⟨"a", 10, 5, 2, 4, true⟩).2.1,
   (C10_frame_idempotent ⟨"a", 10, 5, 2, 4, true⟩).2.2.1 (by decide),
   (C10_frame_idempotent ⟨"a", 10, 5, 2, 4, true⟩).2.2.2.1 (by decide),
   (C10_frame_idempotent ⟨"a", 10, 5, 2, 4, true⟩).2.2.2.2.1 (by decide) (by decide),
   (C10_frame_idempotent ⟨"a", 10, 5, 2, 4, true⟩).2.2.2.2.2.1 (by decide) (by decide),
   (C10_frame_idempotent ⟨"a", 10, 5, 2, 4, true⟩).2.2.2.2.2.2⟩

end ConsulLocker
